import Mathlib

/-!
Verification of the AI Portfolio Builder backend (src/main.py, src/schemas.py).

The Python source is shallowly embedded below.  Pure string processing
(Python `str.strip`, `str.split`, slicing, `", ".join`) is translated to
executable Lean functions on `List Char` / `String`; the HTTP handlers become
Lean functions returning `Except HTTPError _`; the external text-generation
call (`call_llm`) is parameterised by an explicit environment describing the
provider configuration and the HTTP outcome; the document store is explicit
state passed through the persistence handlers.
-/

/-! ## Python string primitives -/

/-- Python whitespace characters recognised by `str.strip()` (ASCII range). -/
def isPySpace (c : Char) : Bool :=
  c = ' ' || c = '\t' || c = '\n' || c = '\r' || c = '\x0b' || c = '\x0c'

/-- Strip characters satisfying `p` from both ends of a list
(the semantics of Python `str.strip`). -/
def stripWhile (p : Char → Bool) (l : List Char) : List Char :=
  ((l.dropWhile p).reverse.dropWhile p).reverse

/-- Python `s.strip()` — remove leading and trailing whitespace. -/
def pyStrip (s : String) : String :=
  String.mk (stripWhile isPySpace s.toList)

/-- Python `s.strip(chars)` — remove leading and trailing characters
belonging to the set `cs`. -/
def pyStripChars (cs : List Char) (s : String) : String :=
  String.mk (stripWhile (fun c => cs.contains c) s.toList)

/-- Python `s.split(c)` for a single-character separator `c`. -/
def splitOnChar (c : Char) : List Char → List (List Char)
  | [] => [[]]
  | a :: t =>
    match splitOnChar c t with
    | [] => [[a]]
    | h :: rt => if a = c then [] :: h :: rt else (a :: h) :: rt

/-- Python `s.split("\n")`. -/
def pySplitLines (s : String) : List String :=
  (splitOnChar '\n' s.toList).map String.mk

/-- The characters before the first occurrence of `sep` in `l`;
the whole list when `sep` does not occur. -/
def takeBeforeFirst (sep : List Char) : List Char → List Char
  | [] => []
  | c :: t => if sep.isPrefixOf (c :: t) then [] else c :: takeBeforeFirst sep t

/-- Python `s.split(sep)[0]`: the text before the first occurrence of `sep`,
or the whole string when `sep` is absent. -/
def firstField (sep : String) (s : String) : String :=
  String.mk (takeBeforeFirst sep.toList s.toList)

/-- Python `sep.join(l)`. -/
def pyJoin (sep : String) : List String → String
  | [] => ""
  | [x] => x
  | x :: y :: t => x ++ sep ++ pyJoin sep (y :: t)

/-- Python `prompt[:n]` — the first `n` characters. -/
def pySlice (n : Nat) (s : String) : String :=
  String.mk (s.toList.take n)

/-- Python `xs or []` on a list value. -/
def pyOrNil (l : List String) : List String :=
  if l.isEmpty then [] else l

/-- Python `x or d` on an optional string (`None` and `""` are falsy). -/
def pyOrStr (o : Option String) (d : String) : String :=
  match o with
  | none => d
  | some s => if s = "" then d else s

/-! ## Text-Generation Client (`call_llm`, src/main.py lines 62-86)

The provider configuration (`AI_API_URL`, `AI_API_KEY` read from the
environment) and the outcome of the single HTTP round trip are passed
explicitly. -/

/-- The body branch taken inside the `resp.ok` case of `call_llm`:
a dict with a truthy `text` field, a dict with a truthy `choices` list whose
first element carries a `text` field, or anything else (which falls through
to the "service unavailable" return). -/
inductive LLMBody where
  | withText (t : String)
  | withChoices (t : String)
  | other
deriving DecidableEq

/-- The outcome of the outbound HTTP call: an exception raised anywhere in
the `try` block (transport failure, JSON parse failure, shape mismatch
raising `AttributeError`/`KeyError`), or a response with a success flag and
a parsed body. -/
inductive HttpResult where
  | exn
  | res (ok : Bool) (body : LLMBody)
deriving DecidableEq

/-- Python truthiness of `AI_PROVIDER_URL and AI_API_KEY`: both environment
variables present and non-empty. -/
def llmConfigured (url key : Option String) : Bool :=
  (url.getD "" != "") && (key.getD "" != "")

/-- The static fallback paragraph returned when the provider is not
configured (src/main.py lines 82-86). -/
def heuristicDraft : String :=
  "Professional, impact-driven candidate. Blends technical depth with clear communication, " ++
  "drives outcomes through projects, internships, and community work. Values clarity, " ++
  "collaboration, and continuous learning."

/-- `call_llm(prompt)` (src/main.py lines 62-86), with the provider
configuration and HTTP outcome explicit. -/
def call_llm (url key : Option String) (http : HttpResult) (prompt : String) : String :=
  if llmConfigured url key then
    match http with
    | .exn => "Draft (AI error): " ++ pySlice 280 prompt ++ "..."
    | .res ok body =>
      if ok then
        match body with
        | .withText t => t
        | .withChoices t => t
        | .other => "Draft (AI service unavailable): " ++ pySlice 280 prompt ++ "..."
      else
        "Draft (AI service unavailable): " ++ pySlice 280 prompt ++ "..."
  else
    heuristicDraft

/-! ## Schemas (src/schemas.py) -/

/-- `PortfolioSection.content` is `Any` in the source — "string or structured
list"; modelled as that tagged alternative. -/
inductive SectionContent where
  | str (s : String)
  | items (l : List (List (String × String)))
deriving DecidableEq

structure PortfolioSection where
  key : String
  title : String
  content : SectionContent
deriving DecidableEq

structure AIGenerateInput where
  name : String
  skills : List String := []
  education : List String := []
  projects : List String := []
  experience : List String := []
  achievements : List String := []
  contact_email : Option String := none
  tone : String := "professional"
deriving DecidableEq

structure ProjectEntry where
  title : String
  description : String
  impact : String
deriving DecidableEq

structure ExperienceEntry where
  role : String
  details : String
  achievements : List String
deriving DecidableEq

structure EducationEntry where
  program : String
  institution : String
  year : String
deriving DecidableEq

structure ContactInfo where
  email : String
  name : String
deriving DecidableEq

structure AIGenerateResult where
  summary : String
  skills : List String
  projects : List ProjectEntry
  experience : List ExperienceEntry
  education : List EducationEntry
  achievements : List String
  contact : ContactInfo
  suggestions : List String
deriving DecidableEq

/-- An HTTPException raised by a handler. -/
structure HTTPError where
  status : Nat
  detail : String
deriving DecidableEq

/-! ## `generate_portfolio` (src/main.py lines 91-137)

The two `call_llm` calls are abstracted as the function argument `llm`
(instantiable with `call_llm url key http`). -/

/-- The character set of `s.strip("- • ")` in src/main.py line 114. -/
def bulletStripSet : List Char := ['-', ' ', '•']

def generate_portfolio (llm : String → String) (data : AIGenerateInput) :
    Except HTTPError AIGenerateResult :=
  let name := pyStrip data.name
  if name = "" then
    .error ⟨400, "Name is required"⟩
  else
    let joined := pyJoin ", " data.skills
    let skills_str := if joined = "" then "(skills not provided)" else joined
    let summary_prompt :=
      "Write a " ++ data.tone ++ " 3-4 sentence professional summary for " ++ name ++ ". " ++
      "Highlight strengths from skills: " ++ skills_str ++
      ". Audience: recruiters and hiring managers."
    let summary := llm summary_prompt
    let suggestions_prompt :=
      "Given the user's inputs (skills, projects, experience, education), suggest 5 concise improvements " ++
      "that strengthen clarity, impact, and ATS readiness. Use imperative tone."
    let suggestions_text := llm suggestions_prompt
    let suggestions :=
      (((pySplitLines suggestions_text).filter (fun s => pyStrip s != "")).map
        (fun s => pyStripChars bulletStripSet s)).take 5
    let projects_struct := data.projects.map
      (fun p => ({ title := firstField " - " p, description := p, impact := "" } : ProjectEntry))
    let experience_struct := data.experience.map
      (fun e => ({ role := firstField " at " e, details := e, achievements := [] } : ExperienceEntry))
    let education_struct := data.education.map
      (fun e => ({ program := e, institution := "", year := "" } : EducationEntry))
    .ok
      { summary := summary
        skills := pyOrNil data.skills
        projects := projects_struct
        experience := experience_struct
        education := education_struct
        achievements := pyOrNil data.achievements
        contact := { email := pyOrStr data.contact_email "", name := name }
        suggestions := suggestions }

/-! ## Portfolio persistence (src/main.py lines 152-210)

The handlers `save_portfolio`, `get_portfolio` and `public_portfolio` are in
src/main.py; the Document Store Adapter they call (`create_document`,
`get_documents` from `database.py`, and `db.portfolio.delete_many`) is not
under src/, so it is modelled below from the spec. -/

/-- `SavePortfolioRequest` (src/main.py lines 152-161). -/
structure SavePortfolioRequest where
  owner_email : String
  username : String
  name : String
  theme : String
  dark_mode : Bool := false
  sections : List PortfolioSection
  seo_title : Option String := none
  seo_description : Option String := none
  assets : List (String × String) := []
deriving DecidableEq

/-- A document of the `portfolio` collection as stored: the payload plus the
store-generated `_id` (modelled as a `Nat`). -/
structure StoredDoc where
  docId : Nat
  payload : SavePortfolioRequest
deriving DecidableEq

/-- Modelled from the spec: the Document Store Adapter (`database.py`,
absent from src/) keeps, per collection, an ordered sequence of documents in
insertion order; only the `portfolio` collection matters to the claims.
`nextId` generates fresh document ids. -/
structure Store where
  portfolio : List StoredDoc
  nextId : Nat
deriving DecidableEq

/-- Modelled from the spec: `getDocuments("portfolio", filter on username)` —
the documents matching the exact-match filter, in insertion order. -/
def get_documents (s : Store) (username : String) : List StoredDoc :=
  s.portfolio.filter (fun d => decide (d.payload.username = username))

/-- Modelled from the spec: `createDocument("portfolio", doc) -> id` —
append the document, return its generated id. -/
def create_document (s : Store) (p : SavePortfolioRequest) : Nat × Store :=
  (s.nextId, { portfolio := s.portfolio ++ [⟨s.nextId, p⟩], nextId := s.nextId + 1 })

/-- Modelled from the spec: `db.portfolio.delete_many(filter on username)` —
delete all matching documents. -/
def delete_many (s : Store) (username : String) : Store :=
  { s with portfolio := s.portfolio.filter (fun d => !decide (d.payload.username = username)) }

/-- `save_portfolio` (src/main.py lines 164-177).  `deleteRaises` models an
exception inside the `try` block guarding the deletion (e.g. the
`from bson import ObjectId` import failing before any document is removed);
the handler swallows it (`except Exception: pass`) and proceeds to insert.
Returns the response pair (id, username) and the new store state. -/
def save_portfolio (deleteRaises : Bool) (payload : SavePortfolioRequest) (s : Store) :
    (Nat × String) × Store :=
  let existing := get_documents s payload.username
  let s1 :=
    if existing.isEmpty then s
    else if deleteRaises then s
    else delete_many s payload.username
  let r := create_document s1 payload
  ((r.1, payload.username), r.2)

/-- The JSON document returned by `get_portfolio`: the stored payload with
the `_id` field coerced to a string. -/
structure PortfolioOut where
  idStr : String
  payload : SavePortfolioRequest
deriving DecidableEq

/-- `get_portfolio` (src/main.py lines 180-187): query by username, 404 on
zero matches, otherwise return the last element (`docs[-1]`) with its id
stringified. -/
def get_portfolio (s : Store) (username : String) : Except HTTPError PortfolioOut :=
  let docs := get_documents s username
  match docs.getLast? with
  | none => .error ⟨404, "Portfolio not found"⟩
  | some d => .ok { idStr := toString d.docId, payload := d.payload }

/-- `public_portfolio` (src/main.py lines 207-210): delegates to
`get_portfolio`. -/
def public_portfolio (s : Store) (username : String) : Except HTTPError PortfolioOut :=
  get_portfolio s username

/-! ## Helper lemmas -/

/-- The head of `dropWhile p` never satisfies `p`. -/
theorem head?_stripWhile_not (p : Char → Bool) (l : List Char) (c : Char)
    (h : (stripWhile p l).head? = some c) : p c = false := by
  have hpre : ((l.dropWhile p).reverse.dropWhile p).reverse <+: l.dropWhile p := by
    have h1 : (l.dropWhile p).reverse.dropWhile p <:+ (l.dropWhile p).reverse :=
      List.dropWhile_suffix p
    have h2 := List.reverse_prefix.mpr h1
    rwa [List.reverse_reverse] at h2
  obtain ⟨t, ht⟩ := hpre
  unfold stripWhile at h
  have h2 : (l.dropWhile p).head? = some c := by
    rw [← ht]
    cases hx : ((l.dropWhile p).reverse.dropWhile p).reverse with
    | nil => rw [hx] at h; simp at h
    | cons a u =>
      rw [hx] at h
      simp only [List.head?_cons, Option.some.injEq] at h
      simp [h]
  have h3 := List.head?_dropWhile_not p l
  rw [h2] at h3
  exact h3

/-- The first character surviving `s.strip("- • ")` is not a dash, space or
bullet. -/
def hasLeadingStripChar (s : String) : Bool :=
  match s.toList.head? with
  | some c => bulletStripSet.contains c
  | none => false

theorem hasLeadingStripChar_pyStripChars (s : String) :
    hasLeadingStripChar (pyStripChars bulletStripSet s) = false := by
  have hts : (pyStripChars bulletStripSet s).toList
      = stripWhile (fun c => bulletStripSet.contains c) s.toList := rfl
  unfold hasLeadingStripChar
  rw [hts]
  cases hh : (stripWhile (fun c => bulletStripSet.contains c) s.toList).head? with
  | none => rfl
  | some c =>
    have hc := head?_stripWhile_not _ _ _ hh
    exact hc

/-- `takeBeforeFirst` returns the whole list when the separator does not
occur in it. -/
theorem takeBeforeFirst_of_sep_absent (sep : List Char) (l : List Char)
    (h : ¬ sep <:+: l) : takeBeforeFirst sep l = l := by
  induction l with
  | nil => rfl
  | cons c t ih =>
    unfold takeBeforeFirst
    rw [if_neg, ih]
    · intro hinf
      exact h (List.infix_cons hinf)
    · intro hpre
      exact h (List.IsPrefix.isInfix (List.isPrefixOf_iff_prefix.mp hpre))

theorem firstField_of_sep_absent (sep : String) (s : String)
    (h : ¬ (sep.toList <:+: s.toList)) : firstField sep s = s := by
  unfold firstField
  rw [takeBeforeFirst_of_sep_absent sep.toList s.toList h]
  cases s
  rfl

/-! ## C1 -/

/-- A concrete provider environment whose suggestions text is the single
line `"-"` (an ok HTTP response whose body is the dict with text `"-"`). -/
def badLlm : String → String :=
  call_llm (some "u") (some "k") (.res true (.withText "-"))

def c1Input : AIGenerateInput := { name := "Ada" }

def c1Result : AIGenerateResult :=
  { summary := "-", skills := [], projects := [], experience := [], education := [],
    achievements := [], contact := { email := "", name := "Ada" }, suggestions := [""] }

/-- C1, as stated, is false: a suggestions line consisting of the single
character `-` passes the blank-line filter (`s.strip()` is `"-"`, truthy)
but is reduced to the empty string by `s.strip("- • ")`, so the result's
suggestions list contains an empty string. -/
theorem C1_counterexample :
    ¬ (∀ (llm : String → String) (input : AIGenerateInput) (r : AIGenerateResult),
        generate_portfolio llm input = Except.ok r →
        r.suggestions.length ≤ 5 ∧
          ∀ s ∈ r.suggestions, s ≠ "" ∧ hasLeadingStripChar s = false) := by
  intro hcl
  have hg : generate_portfolio badLlm c1Input = Except.ok c1Result := rfl
  have h2 := (hcl badLlm c1Input c1Result hg).2 "" (List.mem_singleton_self "")
  exact h2.1 rfl

/-- C1 (amended): for every input accepted by `generate_portfolio` (and any
behaviour of the text-generation client), the suggestions list has length at
most 5 and no entry retains a leading dash, space or bullet-dot character;
an entry may however be the empty string. -/
theorem C1_suggestions_bounded_and_stripped (llm : String → String)
    (input : AIGenerateInput) (r : AIGenerateResult)
    (h : generate_portfolio llm input = Except.ok r) :
    r.suggestions.length ≤ 5 ∧
      ∀ s ∈ r.suggestions, hasLeadingStripChar s = false := by
  simp only [generate_portfolio] at h
  split at h
  · exact Except.noConfusion h
  · rw [Except.ok.injEq] at h
    subst h
    refine ⟨List.length_take_le 5 _, ?_⟩
    intro s hs
    have hs2 := List.mem_of_mem_take hs
    obtain ⟨t, _, ht⟩ := List.mem_map.mp hs2
    rw [← ht]
    exact hasLeadingStripChar_pyStripChars t

theorem C1_witness :
    generate_portfolio badLlm c1Input = Except.ok c1Result ∧
      (c1Result.suggestions.length ≤ 5 ∧
        ∀ s ∈ c1Result.suggestions, hasLeadingStripChar s = false) :=
  ⟨rfl, C1_suggestions_bounded_and_stripped badLlm c1Input c1Result rfl⟩

/-! ## C3 -/

/-- C3: when the name is empty or whitespace-only after trimming,
`generate_portfolio` fails with HTTP 400 and produces no result. -/
theorem C3_empty_name_rejected (llm : String → String) (input : AIGenerateInput)
    (h : pyStrip input.name = "") :
    generate_portfolio llm input = Except.error ⟨400, "Name is required"⟩ := by
  simp [generate_portfolio, h]

theorem C3_witness :
    pyStrip " \t " = "" ∧
      generate_portfolio (fun _ => "") ({ name := " \t " } : AIGenerateInput)
        = Except.error ⟨400, "Name is required"⟩ :=
  ⟨rfl, C3_empty_name_rejected (fun _ => "") ({ name := " \t " } : AIGenerateInput) rfl⟩

/-! ## C4 -/

/-- C4: when the provider is not configured (URL or API key absent/empty),
`call_llm` returns the one fixed fallback string `heuristicDraft`, for every
prompt and every HTTP outcome — so the returned string is identical for all
prompts. -/
theorem C4_unconfigured_fixed_fallback (url key : Option String)
    (h : llmConfigured url key = false) (http : HttpResult) (prompt : String) :
    call_llm url key http prompt = heuristicDraft := by
  simp [call_llm, h]

theorem C4_witness :
    llmConfigured none (some "k") = false ∧
      call_llm none (some "k") .exn "any prompt" = heuristicDraft :=
  ⟨rfl, C4_unconfigured_fixed_fallback none (some "k") rfl .exn "any prompt"⟩

/-! ## C5 -/

/-- C5: with the provider configured, an unsuccessful HTTP status yields the
prompt truncated to 280 characters behind the prefix
`"Draft (AI service unavailable): "`, and any raised transport/parse
exception yields it behind the prefix `"Draft (AI error): "`.  In both
cases `call_llm` returns a plain string (its return type): the failure never
propagates as an error to the caller. -/
theorem C5_provider_failure_absorbed (url key : Option String)
    (h : llmConfigured url key = true) (prompt : String) (body : LLMBody) :
    call_llm url key .exn prompt
        = "Draft (AI error): " ++ pySlice 280 prompt ++ "..." ∧
      call_llm url key (.res false body) prompt
        = "Draft (AI service unavailable): " ++ pySlice 280 prompt ++ "..." := by
  refine ⟨?_, ?_⟩ <;> simp [call_llm, h]

theorem C5_witness :
    llmConfigured (some "u") (some "k") = true ∧
      (call_llm (some "u") (some "k") .exn "hi"
          = "Draft (AI error): " ++ pySlice 280 "hi" ++ "..." ∧
        call_llm (some "u") (some "k") (.res false .other) "hi"
          = "Draft (AI service unavailable): " ++ pySlice 280 "hi" ++ "...") :=
  ⟨rfl, C5_provider_failure_absorbed (some "u") (some "k") rfl "hi" .other⟩

/-! ## C6 -/

/-- C6: each project string becomes a record whose title is the text before
the first `" - "` (the whole string when absent), whose description is the
original string and whose impact is empty; each experience string becomes a
record whose role is the text before the first `" at "`, with the original
string as details and no achievements; each education string becomes a
record with the original string as program and empty institution and year.
In particular `"Build App - a web app"` yields title `"Build App"` and
`"Engineer at Acme"` yields role `"Engineer"`. -/
theorem C6_sections_reshaped (llm : String → String) (input : AIGenerateInput)
    (r : AIGenerateResult) (h : generate_portfolio llm input = Except.ok r) :
    r.projects = input.projects.map
        (fun p => { title := firstField " - " p, description := p, impact := "" }) ∧
      r.experience = input.experience.map
        (fun e => { role := firstField " at " e, details := e, achievements := [] }) ∧
      r.education = input.education.map
        (fun e => { program := e, institution := "", year := "" }) ∧
      (∀ p : String, ¬ (" - ".toList <:+: p.toList) → firstField " - " p = p) ∧
      (∀ e : String, ¬ (" at ".toList <:+: e.toList) → firstField " at " e = e) ∧
      firstField " - " "Build App - a web app" = "Build App" ∧
      firstField " at " "Engineer at Acme" = "Engineer" := by
  simp only [generate_portfolio] at h
  split at h
  · exact Except.noConfusion h
  · rw [Except.ok.injEq] at h
    subst h
    exact ⟨rfl, rfl, rfl, fun p hp => firstField_of_sep_absent _ p hp,
      fun e he => firstField_of_sep_absent _ e he, rfl, rfl⟩

def c6Input : AIGenerateInput :=
  { name := "Ada", projects := ["Build App - a web app"],
    experience := ["Engineer at Acme"], education := ["BSc"] }

def c6Result : AIGenerateResult :=
  { summary := "", skills := [],
    projects := [{ title := "Build App", description := "Build App - a web app", impact := "" }],
    experience := [{ role := "Engineer", details := "Engineer at Acme", achievements := [] }],
    education := [{ program := "BSc", institution := "", year := "" }],
    achievements := [], contact := { email := "", name := "Ada" }, suggestions := [] }

theorem C6_witness :
    generate_portfolio (fun _ => "") c6Input = Except.ok c6Result ∧
      (c6Result.projects = c6Input.projects.map
          (fun p => { title := firstField " - " p, description := p, impact := "" }) ∧
        c6Result.experience = c6Input.experience.map
          (fun e => { role := firstField " at " e, details := e, achievements := [] }) ∧
        c6Result.education = c6Input.education.map
          (fun e => { program := e, institution := "", year := "" }) ∧
        (∀ p : String, ¬ (" - ".toList <:+: p.toList) → firstField " - " p = p) ∧
        (∀ e : String, ¬ (" at ".toList <:+: e.toList) → firstField " at " e = e) ∧
        firstField " - " "Build App - a web app" = "Build App" ∧
        firstField " at " "Engineer at Acme" = "Engineer") :=
  ⟨rfl, C6_sections_reshaped (fun _ => "") c6Input c6Result rfl⟩

/-! ## C7 -/

theorem pyOrNil_eq_self (l : List String) : pyOrNil l = l := by
  cases l <;> rfl

/-- C7: the `skills` and `achievements` fields of a successful
`generate_portfolio` result are exactly the input's (`data.skills or []` and
`data.achievements or []` are the identity on lists). -/
theorem C7_skills_achievements_passthrough (llm : String → String)
    (input : AIGenerateInput) (r : AIGenerateResult)
    (h : generate_portfolio llm input = Except.ok r) :
    r.skills = input.skills ∧ r.achievements = input.achievements := by
  simp only [generate_portfolio] at h
  split at h
  · exact Except.noConfusion h
  · rw [Except.ok.injEq] at h
    subst h
    exact ⟨pyOrNil_eq_self input.skills, pyOrNil_eq_self input.achievements⟩

def c7Input : AIGenerateInput :=
  { name := "Ada", skills := ["python", "sql"], achievements := ["award"] }

def c7Result : AIGenerateResult :=
  { summary := "", skills := ["python", "sql"], projects := [], experience := [],
    education := [], achievements := ["award"],
    contact := { email := "", name := "Ada" }, suggestions := [] }

theorem C7_witness :
    generate_portfolio (fun _ => "") c7Input = Except.ok c7Result ∧
      (c7Result.skills = c7Input.skills ∧ c7Result.achievements = c7Input.achievements) :=
  ⟨rfl, C7_skills_achievements_passthrough (fun _ => "") c7Input c7Result rfl⟩

/-! ## Persistence helper lemmas -/

/-- After a save with a functioning store, the surviving documents for the
saved username are exactly the one just-inserted document, whose id is the
state's fresh id; `nextId` advances by one. -/
theorem get_documents_after_save (p : SavePortfolioRequest) (s : Store) :
    get_documents (save_portfolio false p s).2 p.username = [⟨s.nextId, p⟩] ∧
      (save_portfolio false p s).2.nextId = s.nextId + 1 := by
  unfold save_portfolio create_document
  by_cases hex : (get_documents s p.username).isEmpty = true
  · have hnil : get_documents s p.username = [] := List.isEmpty_iff.mp hex
    refine ⟨?_, by simp [hex]⟩
    simp only [hex, if_true]
    unfold get_documents at hnil ⊢
    simp [List.filter_append, hnil]
  · refine ⟨?_, by simp [hex, delete_many]⟩
    simp only [hex, if_false, Bool.false_eq_true]
    unfold get_documents delete_many
    simp [List.filter_append, List.filter_filter]

/-! ## C2 -/

/-- C2: saving `p1`, then `p2` with the same username, sequentially on a
functioning store, and then reading that username yields exactly the second
payload — the matched document list holds only the second document, so no
duplicate or stale document survives from the first save. -/
theorem C2_second_save_wins (s : Store) (p1 p2 : SavePortfolioRequest)
    (h : p2.username = p1.username) :
    (get_documents (save_portfolio false p2 (save_portfolio false p1 s).2).2
        p1.username).map StoredDoc.payload = [p2] ∧
      get_portfolio (save_portfolio false p2 (save_portfolio false p1 s).2).2 p1.username
        = Except.ok { idStr := toString (s.nextId + 1), payload := p2 } := by
  obtain ⟨h1, hid1⟩ := get_documents_after_save p1 s
  obtain ⟨h2, hid2⟩ := get_documents_after_save p2 (save_portfolio false p1 s).2
  rw [h, hid1] at h2
  refine ⟨by rw [h2]; rfl, ?_⟩
  unfold get_portfolio
  rw [h2]
  rfl

def demoStore : Store := { portfolio := [], nextId := 0 }

def demoP1 : SavePortfolioRequest :=
  { owner_email := "ada@example.com", username := "ada", name := "Ada One",
    theme := "modern", sections := [] }

def demoP2 : SavePortfolioRequest :=
  { owner_email := "ada@example.com", username := "ada", name := "Ada Two",
    theme := "dark", sections := [] }

theorem C2_witness :
    demoP2.username = demoP1.username ∧
      ((get_documents (save_portfolio false demoP2 (save_portfolio false demoP1 demoStore).2).2
          demoP1.username).map StoredDoc.payload = [demoP2] ∧
        get_portfolio (save_portfolio false demoP2 (save_portfolio false demoP1 demoStore).2).2
            demoP1.username
          = Except.ok { idStr := toString (demoStore.nextId + 1), payload := demoP2 }) :=
  ⟨rfl, C2_second_save_wins demoStore demoP1 demoP2 rfl⟩

/-! ## C8 -/

/-- C8: reading a username for which the store holds no document (in
particular, one for which no portfolio was ever saved) fails with HTTP 404. -/
theorem C8_unknown_username_404 (s : Store) (u : String)
    (h : ∀ d ∈ s.portfolio, d.payload.username ≠ u) :
    get_portfolio s u = Except.error ⟨404, "Portfolio not found"⟩ := by
  have hnil : get_documents s u = [] := by
    unfold get_documents
    exact List.filter_eq_nil_iff.mpr (fun d hd => by simp [h d hd])
  unfold get_portfolio
  rw [hnil]
  rfl

theorem C8_witness :
    (∀ d ∈ demoStore.portfolio, d.payload.username ≠ "ghost") ∧
      get_portfolio demoStore "ghost" = Except.error ⟨404, "Portfolio not found"⟩ :=
  ⟨fun d hd => absurd hd (List.not_mem_nil d),
    C8_unknown_username_404 demoStore "ghost" (fun d hd => absurd hd (List.not_mem_nil d))⟩

/-! ## C9 -/

/-- C9: `GET /u/{username}` behaves identically to
`GET /api/portfolio/{username}` in every store state — the handler delegates
to `get_portfolio`. -/
theorem C9_public_route_alias (s : Store) (u : String) :
    public_portfolio s u = get_portfolio s u := rfl

/-! ## C10 -/

/-- C10: when documents with the same username already exist and the
deletion step raises, the exception is swallowed (`except Exception: pass`):
the new document is still inserted, the handler returns its generated id and
the username, and the prior matching documents survive alongside the new
one. -/
theorem C10_delete_error_swallowed (s : Store) (p : SavePortfolioRequest)
    (h : get_documents s p.username ≠ []) :
    (save_portfolio true p s).1 = (s.nextId, p.username) ∧
      (save_portfolio true p s).2.portfolio = s.portfolio ++ [⟨s.nextId, p⟩] ∧
      get_documents (save_portfolio true p s).2 p.username
        = get_documents s p.username ++ [⟨s.nextId, p⟩] ∧
      2 ≤ (get_documents (save_portfolio true p s).2 p.username).length := by
  have hdocs : get_documents (save_portfolio true p s).2 p.username
      = get_documents s p.username ++ [⟨s.nextId, p⟩] := by
    unfold save_portfolio create_document get_documents
    simp [List.filter_append]
  refine ⟨?_, ?_, hdocs, ?_⟩
  · unfold save_portfolio create_document
    simp
  · unfold save_portfolio create_document
    simp
  · rw [hdocs, List.length_append, List.length_singleton]
    have hpos : 1 ≤ (get_documents s p.username).length :=
      List.length_pos.mpr h
    omega

def demoStore10 : Store := { portfolio := [⟨0, demoP1⟩], nextId := 1 }

theorem C10_witness :
    get_documents demoStore10 demoP2.username ≠ [] ∧
      ((save_portfolio true demoP2 demoStore10).1 = (demoStore10.nextId, demoP2.username) ∧
        (save_portfolio true demoP2 demoStore10).2.portfolio
          = demoStore10.portfolio ++ [⟨demoStore10.nextId, demoP2⟩] ∧
        get_documents (save_portfolio true demoP2 demoStore10).2 demoP2.username
          = get_documents demoStore10 demoP2.username ++ [⟨demoStore10.nextId, demoP2⟩] ∧
        2 ≤ (get_documents (save_portfolio true demoP2 demoStore10).2 demoP2.username).length) :=
  ⟨fun hh => List.noConfusion hh,
    C10_delete_error_swallowed demoStore10 demoP2 (fun hh => List.noConfusion hh)⟩
